import Mathlib

/-!
Verification of the R. okamurae detection model (`src/cnn/model.py`).

The file shallowly embeds the two components the spec covers:

* the `RoCNN` classifier: a fixed pipeline of convolution, max-pooling,
  flattening and fully-connected layers (`RoCNN.__init__` / `RoCNN.forward`);
* the checkpoint manager: `save_model` / `load_model`, operating on an
  explicit filesystem state.

Tensors carry their shape together with a total indexing function; entries
are modelled exactly over `ℚ` (the idealisation of the float32 arithmetic:
none of the verified properties depends on rounding, only on shapes and on
values being carried through unchanged).  Layers that raise runtime shape
errors in torch are modelled as `Option`-valued functions whose guard is the
shape condition torch checks.
-/

namespace RoModel

/-- A 4-dimensional tensor of shape (B, C, H, W): batch, channels, height,
width, with a total indexing function (indices outside the shape are junk
and never consumed by well-shaped code). -/
structure Tensor4 where
  b : ℕ
  c : ℕ
  h : ℕ
  w : ℕ
  data : ℕ → ℕ → ℕ → ℕ → ℚ

/-- A 2-dimensional tensor of shape (B, N), as produced by `Flatten` and the
fully connected layers. -/
structure Tensor2 where
  b : ℕ
  n : ℕ
  data : ℕ → ℕ → ℚ

/-- Hyperparameters of a `torch.nn.Conv2d` layer as used in the source:
square kernel, equal strides in both directions, symmetric padding. -/
structure ConvCfg where
  inC : ℕ
  outC : ℕ
  k : ℕ
  s : ℕ
  p : ℕ

/-- Spatial output extent of a convolution/pooling stage:
`floor((n + 2p - k) / s) + 1`. -/
def convOutDim (n k s p : ℕ) : ℕ := (n + 2 * p - k) / s + 1

/-- Zero-padded read of a `Tensor4` entry: index space is enlarged by `p` on
each side, out-of-range reads give 0 (torch zero padding). -/
def getPad (x : Tensor4) (p : ℕ) (b c i j : ℕ) : ℚ :=
  if p ≤ i ∧ i < x.h + p ∧ p ≤ j ∧ j < x.w + p then
    x.data b c (i - p) (j - p)
  else 0

/-- Semantics of `torch.nn.Conv2d` with bias.  The guard is the runtime
check torch performs: the channel count must match `in_channels` and the
padded spatial extent must accommodate the kernel. -/
def conv2d (cfg : ConvCfg) (wt : ℕ → ℕ → ℕ → ℕ → ℚ) (bs : ℕ → ℚ)
    (x : Tensor4) : Option Tensor4 :=
  if x.c = cfg.inC ∧ cfg.k ≤ x.h + 2 * cfg.p ∧ cfg.k ≤ x.w + 2 * cfg.p then
    some { b := x.b
           c := cfg.outC
           h := convOutDim x.h cfg.k cfg.s cfg.p
           w := convOutDim x.w cfg.k cfg.s cfg.p
           data := fun b o i j =>
             bs o + ∑ ci ∈ Finset.range cfg.inC, ∑ ki ∈ Finset.range cfg.k,
               ∑ kj ∈ Finset.range cfg.k,
                 wt o ci ki kj *
                   getPad x cfg.p b ci (i * cfg.s + ki) (j * cfg.s + kj) }
  else none

/-- Maximum of `f ki kj` over the `k × k` window `ki, kj < k`. -/
def windowMax (f : ℕ → ℕ → ℚ) (k : ℕ) : ℚ :=
  (List.range (k * k)).foldl (fun acc t => max acc (f (t / k) (t % k))) (f 0 0)

/-- Semantics of `torch.nn.MaxPool2d` with `padding=0`: the guard is that a
full window fits inside the input. -/
def maxpool (k s : ℕ) (x : Tensor4) : Option Tensor4 :=
  if k ≤ x.h ∧ k ≤ x.w then
    some { b := x.b
           c := x.c
           h := convOutDim x.h k s 0
           w := convOutDim x.w k s 0
           data := fun b c i j =>
             windowMax (fun ki kj => x.data b c (i * s + ki) (j * s + kj)) k }
  else none

/-- Elementwise `ReLU` on a 4-d tensor (the in-place flag of the source only
reuses the buffer; the value semantics is `max 0`). -/
def relu4 (x : Tensor4) : Tensor4 :=
  { x with data := fun b c i j => max 0 (x.data b c i j) }

/-- Elementwise `ReLU` on a 2-d tensor. -/
def relu2 (x : Tensor2) : Tensor2 :=
  { x with data := fun b i => max 0 (x.data b i) }

/-- Semantics of `torch.nn.Flatten`: collapses (C, H, W) into one dimension
of length `C*H*W`, row-major in (channel, row, column) order, preserving the
batch dimension. -/
def flatten (x : Tensor4) : Tensor2 :=
  { b := x.b
    n := x.c * x.h * x.w
    data := fun b idx =>
      x.data b (idx / (x.h * x.w)) (idx % (x.h * x.w) / x.w) (idx % x.w) }

/-- Semantics of `torch.nn.Linear` with bias; the guard is torch's runtime
check that the feature dimension equals `in_features`. -/
def linear (inF outF : ℕ) (wt : ℕ → ℕ → ℚ) (bs : ℕ → ℚ)
    (x : Tensor2) : Option Tensor2 :=
  if x.n = inF then
    some { b := x.b
           n := outF
           data := fun b o => bs o + ∑ i ∈ Finset.range inF, wt o i * x.data b i }
  else none

/-- The learned parameters of `RoCNN` (`RoCNN.__init__`): weights and biases
of the three convolutions and the three fully connected layers.  The pooling,
flatten and ReLU layers have no parameters.  Shapes are architecture
constants and are recorded in `state_dict`. -/
structure RoCNN where
  cv1w : ℕ → ℕ → ℕ → ℕ → ℚ
  cv1b : ℕ → ℚ
  cv2w : ℕ → ℕ → ℕ → ℕ → ℚ
  cv2b : ℕ → ℚ
  cv3w : ℕ → ℕ → ℕ → ℕ → ℚ
  cv3b : ℕ → ℚ
  fc1w : ℕ → ℕ → ℚ
  fc1b : ℕ → ℚ
  fc2w : ℕ → ℕ → ℚ
  fc2b : ℕ → ℚ
  fc3w : ℕ → ℕ → ℚ
  fc3b : ℕ → ℚ

/-- Layer `self.cv1`: Conv2d(6, 32, kernel 4, stride 2, padding 0). -/
def cv1Cfg : ConvCfg := ⟨6, 32, 4, 2, 0⟩

/-- Layer `self.cv2`: Conv2d(32, 64, kernel 3, stride 1, padding 1). -/
def cv2Cfg : ConvCfg := ⟨32, 64, 3, 1, 1⟩

/-- Layer `self.cv3`: Conv2d(64, 64, kernel 3, stride 1, padding 1). -/
def cv3Cfg : ConvCfg := ⟨64, 64, 3, 1, 1⟩

/-- Applying `self.cv1`: convolution then ReLU. -/
def cv1 (m : RoCNN) (x : Tensor4) : Option Tensor4 :=
  (conv2d cv1Cfg m.cv1w m.cv1b x).map relu4

/-- Applying `self.cv2`: convolution then ReLU. -/
def cv2 (m : RoCNN) (x : Tensor4) : Option Tensor4 :=
  (conv2d cv2Cfg m.cv2w m.cv2b x).map relu4

/-- Applying `self.cv3`: convolution then ReLU. -/
def cv3 (m : RoCNN) (x : Tensor4) : Option Tensor4 :=
  (conv2d cv3Cfg m.cv3w m.cv3b x).map relu4

/-- Layer `self.mp1`: MaxPool2d(kernel 3, stride 2, padding 0). -/
def mp1 (x : Tensor4) : Option Tensor4 := maxpool 3 2 x

/-- Layer `self.mp2`: MaxPool2d(kernel 3, stride 2, padding 0). -/
def mp2 (x : Tensor4) : Option Tensor4 := maxpool 3 2 x

/-- Layer `self.fc1`: Linear(7*7*64, 512) then ReLU. -/
def fc1 (m : RoCNN) (x : Tensor2) : Option Tensor2 :=
  (linear (7 * 7 * 64) 512 m.fc1w m.fc1b x).map relu2

/-- Layer `self.fc2`: Linear(512, 64) then ReLU. -/
def fc2 (m : RoCNN) (x : Tensor2) : Option Tensor2 :=
  (linear 512 64 m.fc2w m.fc2b x).map relu2

/-- Layer `self.fc3`: Linear(64, 1), no nonlinearity. -/
def fc3 (m : RoCNN) (x : Tensor2) : Option Tensor2 :=
  linear 64 1 m.fc3w m.fc3b x

/-- State of `x` after line `x = self.cv1(x)` of `forward`. -/
def stage1 (m : RoCNN) (x : Tensor4) : Option Tensor4 := cv1 m x

/-- State of `x` after line `x = self.mp1(x)`. -/
def stage2 (m : RoCNN) (x : Tensor4) : Option Tensor4 := (stage1 m x).bind mp1

/-- State of `x` after line `x = self.cv2(x)`. -/
def stage3 (m : RoCNN) (x : Tensor4) : Option Tensor4 := (stage2 m x).bind (cv2 m)

/-- State of `x` after line `x = self.cv3(x)`. -/
def stage4 (m : RoCNN) (x : Tensor4) : Option Tensor4 := (stage3 m x).bind (cv3 m)

/-- State of `x` after line `x = self.mp2(x)`. -/
def stage5 (m : RoCNN) (x : Tensor4) : Option Tensor4 := (stage4 m x).bind mp2

/-- State of `x` after line `x = self.flatten(x)`. -/
def stage6 (m : RoCNN) (x : Tensor4) : Option Tensor2 := (stage5 m x).map flatten

/-- State of `x` after line `x = self.fc1(x)`. -/
def stage7 (m : RoCNN) (x : Tensor4) : Option Tensor2 := (stage6 m x).bind (fc1 m)

/-- State of `x` after line `x = self.fc2(x)`. -/
def stage8 (m : RoCNN) (x : Tensor4) : Option Tensor2 := (stage7 m x).bind (fc2 m)

/-- Function `RoCNN.forward`: the full pipeline, returning the `fc3` output (the
state of `x` at the `return` statement). -/
def forward (m : RoCNN) (x : Tensor4) : Option Tensor2 := (stage8 m x).bind (fc3 m)

/-!
Checkpoint manager (`save_model` / `load_model`).

A checkpoint is the serialized `state_dict`: an ordered mapping from
parameter name to tensor value (with its shape).  `torch.save` /
`torch.load` round-trip these bytes exactly, so a stored checkpoint is
modelled as the state dict itself.  The filesystem is an explicit state:
a set of existing directories plus a map from file path to stored
checkpoint.  The interactive `input(...)` call of `load_model` is modelled
by passing the caller's answer string as an argument, and the fresh
randomly-initialised `RoCNN()` by passing the drawn parameters as an
argument.  `print` calls are not modelled.
-/

/-- A parameter tensor as it appears in a state dict: dimensions plus data
(4-d convolution weights, 2-d linear weights, 1-d biases). -/
inductive ParamVal where
  | p4 (n0 n1 n2 n3 : ℕ) (d : ℕ → ℕ → ℕ → ℕ → ℚ)
  | p2 (n0 n1 : ℕ) (d : ℕ → ℕ → ℚ)
  | p1 (n0 : ℕ) (d : ℕ → ℚ)

/-- A serialized checkpoint: parameter name to value, in insertion order. -/
def StateDict := List (String × ParamVal)

/-- The parameter names `RoCNN` declares, in registration order (the
`Sequential` wrappers put the parameterised layer at index 0; pooling,
flatten and ReLU contribute nothing). -/
def declaredKeys : List String :=
  ["cv1.0.weight", "cv1.0.bias", "cv2.0.weight", "cv2.0.bias",
   "cv3.0.weight", "cv3.0.bias", "fc1.0.weight", "fc1.0.bias",
   "fc2.0.weight", "fc2.0.bias", "fc3.weight", "fc3.bias"]

/-- Method `model.state_dict()`: the full parameter mapping with the architecture's
shapes (Conv2d weights are (outC, inC, k, k), Linear weights (outF, inF)). -/
def state_dict (m : RoCNN) : StateDict :=
  [("cv1.0.weight", .p4 32 6 4 4 m.cv1w), ("cv1.0.bias", .p1 32 m.cv1b),
   ("cv2.0.weight", .p4 64 32 3 3 m.cv2w), ("cv2.0.bias", .p1 64 m.cv2b),
   ("cv3.0.weight", .p4 64 64 3 3 m.cv3w), ("cv3.0.bias", .p1 64 m.cv3b),
   ("fc1.0.weight", .p2 512 3136 m.fc1w), ("fc1.0.bias", .p1 512 m.fc1b),
   ("fc2.0.weight", .p2 64 512 m.fc2w), ("fc2.0.bias", .p1 64 m.fc2b),
   ("fc3.weight", .p2 1 64 m.fc3w), ("fc3.bias", .p1 1 m.fc3b)]

/-- Checks that `sd` holds at key `k` a 4-d tensor of the given shape
(torch: the key is neither missing nor of mismatched size). -/
def checkKey4 (sd : StateDict) (k : String) (a0 a1 a2 a3 : ℕ) : Bool :=
  match sd.lookup k with
  | some (.p4 n0 n1 n2 n3 _) => n0 == a0 && n1 == a1 && n2 == a2 && n3 == a3
  | _ => false

/-- Checks that `sd` holds at key `k` a 2-d tensor of the given shape. -/
def checkKey2 (sd : StateDict) (k : String) (a0 a1 : ℕ) : Bool :=
  match sd.lookup k with
  | some (.p2 n0 n1 _) => n0 == a0 && n1 == a1
  | _ => false

/-- Checks that `sd` holds at key `k` a 1-d tensor of the given shape. -/
def checkKey1 (sd : StateDict) (k : String) (a0 : ℕ) : Bool :=
  match sd.lookup k with
  | some (.p1 n0 _) => n0 == a0
  | _ => false

/-- The validation `Module.load_state_dict` performs before copying any
value: every declared parameter is present with its declared shape (no
missing key, no size mismatch) and there is no unexpected key. -/
def checkSD (sd : StateDict) : Bool :=
  checkKey4 sd "cv1.0.weight" 32 6 4 4 && checkKey1 sd "cv1.0.bias" 32 &&
  checkKey4 sd "cv2.0.weight" 64 32 3 3 && checkKey1 sd "cv2.0.bias" 64 &&
  checkKey4 sd "cv3.0.weight" 64 64 3 3 && checkKey1 sd "cv3.0.bias" 64 &&
  checkKey2 sd "fc1.0.weight" 512 3136 && checkKey1 sd "fc1.0.bias" 512 &&
  checkKey2 sd "fc2.0.weight" 64 512 && checkKey1 sd "fc2.0.bias" 64 &&
  checkKey2 sd "fc3.weight" 1 64 && checkKey1 sd "fc3.bias" 1 &&
  sd.all (fun kv => declaredKeys.contains kv.1)

/-- Extracts the 4-d data stored at key `k` (only consulted after
`checkSD` has succeeded, so the default is never observable). -/
def getD4 (sd : StateDict) (k : String) : ℕ → ℕ → ℕ → ℕ → ℚ :=
  match sd.lookup k with
  | some (.p4 _ _ _ _ d) => d
  | _ => fun _ _ _ _ => 0

/-- Extracts the 2-d data stored at key `k`. -/
def getD2 (sd : StateDict) (k : String) : ℕ → ℕ → ℚ :=
  match sd.lookup k with
  | some (.p2 _ _ d) => d
  | _ => fun _ _ => 0

/-- Extracts the 1-d data stored at key `k`. -/
def getD1 (sd : StateDict) (k : String) : ℕ → ℚ :=
  match sd.lookup k with
  | some (.p1 _ d) => d
  | _ => fun _ => 0

/-- Method `model.load_state_dict(sd)`: validates names and shapes, then replaces
every parameter of the model with the checkpoint's value.  On failure no
model is produced (torch raises before copying). -/
def load_state_dict (sd : StateDict) : Option RoCNN :=
  if checkSD sd then
    some { cv1w := getD4 sd "cv1.0.weight", cv1b := getD1 sd "cv1.0.bias"
           cv2w := getD4 sd "cv2.0.weight", cv2b := getD1 sd "cv2.0.bias"
           cv3w := getD4 sd "cv3.0.weight", cv3b := getD1 sd "cv3.0.bias"
           fc1w := getD2 sd "fc1.0.weight", fc1b := getD1 sd "fc1.0.bias"
           fc2w := getD2 sd "fc2.0.weight", fc2b := getD1 sd "fc2.0.bias"
           fc3w := getD2 sd "fc3.weight", fc3b := getD1 sd "fc3.bias" }
  else none

/-- The filesystem state: existing directories and stored checkpoint files
(association list from path to stored state dict; the most recent write for
a path shadows older entries). -/
structure FS where
  dirs : List String
  files : List (String × StateDict)

/-- Python `os.path.exists`: true when a directory or a file exists at `p`. -/
def existsPath (fs : FS) (p : String) : Bool :=
  fs.dirs.contains p || (fs.files.lookup p).isSome

/-- Python `os.makedirs`: registers the directory (recursive creation of the
intermediate levels is not observed by any checked property). -/
def addDir (fs : FS) (p : String) : FS := { fs with dirs := p :: fs.dirs }

/-- Call `torch.save(sd, path)`: stores the checkpoint at `path`, replacing any
previous content. -/
def writeFile (fs : FS) (p : String) (sd : StateDict) : FS :=
  { fs with files := (p, sd) :: fs.files }

/-- Index of the last occurrence of `c` in the list, as Python
`str.rindex` computes it (`none` when absent, where Python raises
`ValueError`). -/
def lastIdxOf (c : Char) : List Char → Option ℕ
  | [] => none
  | a :: l =>
    match lastIdxOf c l with
    | some j => some (j + 1)
    | none => if a = c then some 0 else none

/-- Python `path.rindex` at the backslash character: position of the last backslash of the path. -/
def rindexBackslash (s : String) : Option ℕ := lastIdxOf '\\' s.data

/-- The containing folder `save_model` derives: the prefix of `path` up to
(excluding) its last backslash. -/
def folderOf (path : String) (i : ℕ) : String := String.mk (path.data.take i)

/-- Error raised by `save_model`: `str.rindex` on a path with no backslash
raises `ValueError`. -/
inductive SaveErr where
  | valueError

/-- Errors raised by `load_model`: `torch.load` on a missing file, and
`load_state_dict` on a mismatched checkpoint. -/
inductive LoadErr where
  | fileNotFound
  | parameterMismatch

/-- Function `save_model(model, path, overwrite)` of `src/cnn/model.py`: derives the
folder from the last backslash of `path` (raising `ValueError` when there is
none), creates the folder when missing, silently skips the write when the
target exists and `overwrite` is false, and otherwise stores the model's
`state_dict` at `path`. -/
def save_model (m : RoCNN) (path : String) (overwrite : Bool) (fs : FS) :
    Except SaveErr FS :=
  match rindexBackslash path with
  | none => .error .valueError
  | some i =>
    let folder := folderOf path i
    if ¬ existsPath fs folder then
      .ok (writeFile (addDir fs folder) path (state_dict m))
    else if existsPath fs path ∧ ¬ overwrite then
      .ok fs
    else
      .ok (writeFile fs path (state_dict m))

/-- Function `load_model(path)` of `src/cnn/model.py`.  `answer` is what the caller
types at the `input(...)` prompt (consulted only when `path` is missing);
`init` is the freshly constructed `RoCNN()` with its random initial
parameters.  When `create` stays false the stored checkpoint is read
(`torch.load` raising when the file is absent) and loaded into the model. -/
def load_model (init : RoCNN) (path answer : String) (fs : FS) :
    Except LoadErr RoCNN :=
  let create := ¬ existsPath fs path && (answer == "y" || answer == "Y")
  if create then .ok init
  else
    match fs.files.lookup path with
    | none => .error .fileNotFound
    | some sd =>
      match load_state_dict sd with
      | some m => .ok m
      | none => .error .parameterMismatch

/-!
Concrete instances used by witnesses and counterexamples.
-/

/-- A concrete `RoCNN` with all parameters zero. -/
def zeroModel : RoCNN :=
  { cv1w := fun _ _ _ _ => 0, cv1b := fun _ => 0
    cv2w := fun _ _ _ _ => 0, cv2b := fun _ => 0
    cv3w := fun _ _ _ _ => 0, cv3b := fun _ => 0
    fc1w := fun _ _ => 0, fc1b := fun _ => 0
    fc2w := fun _ _ => 0, fc2b := fun _ => 0
    fc3w := fun _ _ => 0, fc3b := fun _ => 0 }

/-- A concrete all-zero input batch of shape (1, 6, 64, 64). -/
def t0 : Tensor4 := ⟨1, 6, 64, 64, fun _ _ _ _ => 0⟩

/-- The empty filesystem. -/
def fsEmpty : FS := ⟨[], []⟩

/-- A filesystem whose directory `d` holds a checkpoint of `zeroModel`. -/
def fsD : FS := ⟨["d"], [("d\\m.pth", state_dict zeroModel)]⟩

/-- A filesystem holding a checkpoint at a path with no backslash
(a file in the current working directory). -/
def fsNoSep : FS := ⟨[], [("m.pth", state_dict zeroModel)]⟩

/-- A checkpoint whose parameter name set (`foo`) does not match
`declaredKeys`. -/
def sdBad : StateDict := [("foo", .p1 1 (fun _ => 0))]

/-- A filesystem holding the mismatched checkpoint `sdBad`. -/
def fsBad : FS := ⟨["d"], [("d\\m.pth", sdBad)]⟩

/-- Shape of a 4-d tensor as height × width × channels, the order the spec
lists the stage shapes in. -/
def sh4 (t : Tensor4) : ℕ × ℕ × ℕ := (t.h, t.w, t.c)

/-- Width of a 2-d tensor. -/
def sh2 (t : Tensor2) : ℕ := t.n

/-- C2: for every input tensor of shape (B, 6, 64, 64) with batch size
B ≥ 1, `RoCNN.forward` returns a tensor of shape (B, 1). -/
theorem forward_shape (m : RoCNN) (x : Tensor4)
    (hb : 1 ≤ x.b) (hc : x.c = 6) (hh : x.h = 64) (hw : x.w = 64) :
    ∃ y, forward m x = some y ∧ y.b = x.b ∧ y.n = 1 := by
  obtain ⟨b, c, h, w, d⟩ := x
  dsimp at hc hh hw
  subst hc; subst hh; subst hw
  have hm : (forward m ⟨b, 6, 64, 64, d⟩).map (fun y => (y.b, y.n)) = some (b, 1) := by
    simp [forward, stage8, stage7, stage6, stage5, stage4, stage3, stage2, stage1,
          cv1, cv2, cv3, mp1, mp2, fc1, fc2, fc3, conv2d, maxpool, linear, flatten,
          relu4, relu2, cv1Cfg, cv2Cfg, cv3Cfg, convOutDim]
  cases hf : forward m ⟨b, 6, 64, 64, d⟩ with
  | none => rw [hf] at hm; simp at hm
  | some y =>
    rw [hf] at hm
    simp only [Option.map_some', Option.some.injEq, Prod.mk.injEq] at hm
    exact ⟨y, rfl, hm.1, hm.2⟩

/-- Witness for `forward_shape` at the concrete zero input `t0`. -/
theorem forward_shape_witness :
    ∃ y, forward zeroModel t0 = some y ∧ y.b = t0.b ∧ y.n = 1 :=
  forward_shape zeroModel t0 (by decide) rfl rfl rfl

set_option maxHeartbeats 1600000 in
/-- C3: for a single 64×64×6 input, the intermediate shapes after each
stage of `RoCNN.forward` are 31×31×32, 15×15×32, 15×15×64, 15×15×64,
7×7×64, 3136, 512, 64, 1 (height × width × channels).  Each stage
succeeding on its predecessor's output is exactly the chaining of the layer
dimensions; the conv channel chaining is also stated on the layer
hyperparameters themselves. -/
theorem shape_chain (m : RoCNN) (x : Tensor4)
    (hb : x.b = 1) (hc : x.c = 6) (hh : x.h = 64) (hw : x.w = 64) :
    (stage1 m x).map sh4 = some (31, 31, 32) ∧
    (stage2 m x).map sh4 = some (15, 15, 32) ∧
    (stage3 m x).map sh4 = some (15, 15, 64) ∧
    (stage4 m x).map sh4 = some (15, 15, 64) ∧
    (stage5 m x).map sh4 = some (7, 7, 64) ∧
    (stage6 m x).map sh2 = some 3136 ∧
    (stage7 m x).map sh2 = some 512 ∧
    (stage8 m x).map sh2 = some 64 ∧
    (forward m x).map sh2 = some 1 ∧
    cv1Cfg.outC = cv2Cfg.inC ∧ cv2Cfg.outC = cv3Cfg.inC := by
  obtain ⟨b, c, h, w, d⟩ := x
  dsimp at hb hc hh hw
  subst hb; subst hc; subst hh; subst hw
  refine ⟨?_, ?_, ?_, ?_, ?_, ?_, ?_, ?_, ?_, rfl, rfl⟩ <;>
    simp [forward, stage8, stage7, stage6, stage5, stage4, stage3, stage2, stage1,
          cv1, cv2, cv3, mp1, mp2, fc1, fc2, fc3, conv2d, maxpool, linear, flatten,
          relu4, relu2, cv1Cfg, cv2Cfg, cv3Cfg, convOutDim, sh4, sh2]

/-- Witness for `shape_chain` at the concrete zero input `t0`. -/
theorem shape_chain_witness :
    (stage1 zeroModel t0).map sh4 = some (31, 31, 32) ∧
    (stage2 zeroModel t0).map sh4 = some (15, 15, 32) ∧
    (stage3 zeroModel t0).map sh4 = some (15, 15, 64) ∧
    (stage4 zeroModel t0).map sh4 = some (15, 15, 64) ∧
    (stage5 zeroModel t0).map sh4 = some (7, 7, 64) ∧
    (stage6 zeroModel t0).map sh2 = some 3136 ∧
    (stage7 zeroModel t0).map sh2 = some 512 ∧
    (stage8 zeroModel t0).map sh2 = some 64 ∧
    (forward zeroModel t0).map sh2 = some 1 ∧
    cv1Cfg.outC = cv2Cfg.inC ∧ cv2Cfg.outC = cv3Cfg.inC :=
  shape_chain zeroModel t0 rfl rfl rfl rfl

/-- Loading back a model's own `state_dict` reconstructs the model exactly:
validation passes and every parameter is recovered unchanged. -/
theorem load_state_dict_state_dict (m : RoCNN) :
    load_state_dict (state_dict m) = some m := rfl

/-- A model is determined by its `state_dict`: equal serialized parameter
mappings mean equal models. -/
theorem state_dict_injective (m1 m2 : RoCNN)
    (h : state_dict m1 = state_dict m2) : m1 = m2 := by
  have h2 := congrArg load_state_dict h
  rw [load_state_dict_state_dict, load_state_dict_state_dict] at h2
  exact Option.some.inj h2

/-- C9: `RoCNN.forward` is a pure function of (parameters, input): any two
models with equal `state_dict` produce equal outputs on every input (and,
the model being a value, no state outside the declared parameters exists to
be mutated). -/
theorem forward_deterministic (m1 m2 : RoCNN) (x : Tensor4)
    (h : state_dict m1 = state_dict m2) : forward m1 x = forward m2 x := by
  rw [state_dict_injective m1 m2 h]

/-- Witness for `forward_deterministic` at the zero model and zero input. -/
theorem forward_deterministic_witness :
    forward zeroModel t0 = forward zeroModel t0 :=
  forward_deterministic zeroModel zeroModel t0 rfl

/-- A freshly written file is found by `lookup`. -/
theorem lookup_writeFile (fs : FS) (p : String) (sd : StateDict) :
    ((writeFile fs p sd).files).lookup p = some sd := by
  simp [writeFile, List.lookup]

/-- A freshly written file exists. -/
theorem existsPath_writeFile (fs : FS) (p : String) (sd : StateDict) :
    existsPath (writeFile fs p sd) p = true := by
  simp [existsPath, lookup_writeFile fs p sd]

/-- Loading right after writing a model's checkpoint reconstructs that
model: the file is found, no prompt outcome matters, and `load_state_dict`
restores every parameter. -/
theorem load_after_write (init m : RoCNN) (fs : FS) (p answer : String) :
    load_model init p answer (writeFile fs p (state_dict m)) = .ok m := by
  unfold load_model
  rw [existsPath_writeFile]
  simp [lookup_writeFile, load_state_dict_state_dict]

/-- C1: save-then-load round-trip.  "save succeeds" is taken as the save
being performed (the no-clobber skip is the spec's separate
`OverwriteSkipped` outcome, covered elsewhere): whenever `save_model`
returns without error after actually serializing — which is forced when the
target file did not previously exist or when `overwrite` is set — `load_model`
on the same path returns a model whose `forward` output on any input is
identical to the original model's (over the exact value semantics, i.e.
bit-for-bit). -/
theorem save_load_roundtrip (m init : RoCNN) (path answer : String)
    (ow : Bool) (fs fs' : FS) (x : Tensor4)
    (hsave : save_model m path ow fs = .ok fs')
    (hwrote : existsPath fs path = false ∨ ow = true) :
    ∃ m', load_model init path answer fs' = .ok m' ∧
      forward m' x = forward m x := by
  unfold save_model at hsave
  cases hr : rindexBackslash path with
  | none => rw [hr] at hsave; exact absurd hsave (by simp)
  | some i =>
    rw [hr] at hsave
    dsimp only at hsave
    split at hsave
    · obtain rfl := Except.ok.inj hsave
      exact ⟨m, load_after_write init m (addDir fs (folderOf path i)) path answer, rfl⟩
    · split at hsave
      · rename_i hcond
        rcases hwrote with hmiss | hov
        · rw [hmiss] at hcond
          simp at hcond
        · subst hov
          simp at hcond
      · obtain rfl := Except.ok.inj hsave
        exact ⟨m, load_after_write init m fs path answer, rfl⟩

/-- Witness for `save_load_roundtrip`: saving the zero model into an empty
filesystem and loading it back. -/
theorem save_load_roundtrip_witness :
    ∃ m', load_model zeroModel "d\\m.pth" "n" fsD = .ok m' ∧
      forward m' t0 = forward zeroModel t0 :=
  save_load_roundtrip zeroModel zeroModel "d\\m.pth" "n" false fsEmpty fsD t0
    rfl (Or.inl rfl)

/-- A path that does not exist holds no file. -/
theorem lookup_of_not_exists (fs : FS) (p : String)
    (h : existsPath fs p = false) : fs.files.lookup p = none := by
  unfold existsPath at h
  rw [Bool.or_eq_false_iff] at h
  exact Option.not_isSome_iff_eq_none.mp (by simp [h.2])

/-- C4: `load_model` on a missing path consults the interactive answer:
`y` or `Y` yields the freshly constructed randomly-initialised model with
no checkpoint read (terminal success); any other answer leaves `create`
false and the load attempt fails with the not-found error — declining never
returns a fresh model. -/
theorem load_missing (init : RoCNN) (path answer : String) (fs : FS)
    (h : existsPath fs path = false) :
    ((answer = "y" ∨ answer = "Y") →
        load_model init path answer fs = .ok init) ∧
    (answer ≠ "y" → answer ≠ "Y" →
        load_model init path answer fs = .error .fileNotFound) := by
  unfold load_model
  rw [h, lookup_of_not_exists fs path h]
  constructor
  · rintro (rfl | rfl) <;> simp
  · intro h1 h2
    rw [if_neg]
    simp [h1, h2]

/-- Witness for `load_missing`: empty filesystem, affirmative answer. -/
theorem load_missing_witness :
    load_model zeroModel "d\\m.pth" "y" fsEmpty = .ok zeroModel :=
  (load_missing zeroModel "d\\m.pth" "y" fsEmpty rfl).1 (Or.inl rfl)

/-- Computing `rindex` of a character that does not occur gives `none`. -/
theorem lastIdxOf_eq_none (c : Char) (l : List Char) (h : c ∉ l) :
    lastIdxOf c l = none := by
  induction l with
  | nil => rfl
  | cons a l ih =>
    rw [List.mem_cons, not_or] at h
    unfold lastIdxOf
    rw [ih h.2]
    exact if_neg (fun hac : a = c => h.1 hac.symm)

/-- C10: for every path containing no backslash, `save_model` fails with
the `ValueError` from `path.rindex` before any filesystem check or write
(the result does not depend on the filesystem state at all, and no new
state is produced). -/
theorem save_no_backslash (m : RoCNN) (path : String) (ow : Bool) (fs : FS)
    (h : '\\' ∉ path.data) :
    save_model m path ow fs = .error .valueError := by
  unfold save_model rindexBackslash
  rw [lastIdxOf_eq_none '\\' path.data h]

/-- Witness for `save_no_backslash` at a POSIX-style path. -/
theorem save_no_backslash_witness :
    save_model zeroModel "models/m.pth" false fsEmpty = .error .valueError :=
  save_no_backslash zeroModel "models/m.pth" false fsEmpty (by decide)

/-- Counterexample to C5 as stated: at the separator-free path `m.pth` a
file exists, yet `save_model` with `overwrite = false` does not return
without error — it raises `ValueError` from `path.rindex`. -/
theorem save_no_clobber_counterexample :
    (fsNoSep.files.lookup "m.pth").isSome = true ∧
    save_model zeroModel "m.pth" false fsNoSep = .error .valueError :=
  ⟨rfl, rfl⟩

/-- C5 amended: for every path that contains a backslash (so folder
derivation succeeds, as on every real filesystem state reachable by the
code, where a file's containing folder exists), if a file already exists at
the path then `save_model` with `overwrite = false` returns without error
and performs no write: the filesystem — in particular the existing file's
content — is unchanged. -/
theorem save_no_clobber (m : RoCNN) (path : String) (fs : FS) (i : ℕ)
    (sd : StateDict)
    (hr : rindexBackslash path = some i)
    (hfold : existsPath fs (folderOf path i) = true)
    (hfile : fs.files.lookup path = some sd) :
    save_model m path false fs = .ok fs := by
  unfold save_model
  rw [hr]
  have hp : existsPath fs path = true := by simp [existsPath, hfile]
  simp [hfold, hp]

/-- Witness for `save_no_clobber`: the checkpoint directory `d` already
holds `d\m.pth`, and the save is a silent no-op. -/
theorem save_no_clobber_witness :
    save_model zeroModel "d\\m.pth" false fsD = .ok fsD :=
  save_no_clobber zeroModel "d\\m.pth" fsD 1 (state_dict zeroModel)
    rfl rfl rfl

/-- Counterexample to C7 as stated: at the separator-free path `m.pth` a
file exists and its containing folder (the working directory) is present,
yet `save_model` with `overwrite = true` raises `ValueError` instead of
replacing the file. -/
theorem save_overwrite_counterexample :
    (fsNoSep.files.lookup "m.pth").isSome = true ∧
    save_model zeroModel "m.pth" true fsNoSep = .error .valueError :=
  ⟨rfl, rfl⟩

/-- C7 amended: for every path that contains a backslash, whose derived
containing folder is present and at which a file already exists,
`save_model` with `overwrite = true` succeeds and replaces the file's
contents with the serialization of the new model's parameters. -/
theorem save_overwrite (m : RoCNN) (path : String) (fs : FS) (i : ℕ)
    (sd : StateDict)
    (hr : rindexBackslash path = some i)
    (hfold : existsPath fs (folderOf path i) = true)
    (_hfile : fs.files.lookup path = some sd) :
    save_model m path true fs = .ok (writeFile fs path (state_dict m)) ∧
    ((writeFile fs path (state_dict m)).files).lookup path
      = some (state_dict m) := by
  refine ⟨?_, lookup_writeFile fs path (state_dict m)⟩
  unfold save_model
  rw [hr]
  simp [hfold]

/-- Witness for `save_overwrite`: overwriting the existing `d\m.pth`. -/
theorem save_overwrite_witness :
    save_model zeroModel "d\\m.pth" true fsD
      = .ok (writeFile fsD "d\\m.pth" (state_dict zeroModel)) ∧
    ((writeFile fsD "d\\m.pth" (state_dict zeroModel)).files).lookup "d\\m.pth"
      = some (state_dict zeroModel) :=
  save_overwrite zeroModel "d\\m.pth" fsD 1 (state_dict zeroModel)
    rfl rfl rfl

/-- C8: calling `save_model` twice at the same path whose containing
directory does not initially exist creates the directory exactly once — the
first call adds it (and writes the checkpoint), and the second call returns
the filesystem unchanged without failing (the no-clobber skip). -/
theorem save_mkdir_idempotent (m : RoCNN) (path : String) (fs : FS) (i : ℕ)
    (hr : rindexBackslash path = some i)
    (hfold : existsPath fs (folderOf path i) = false) :
    ∃ fs1, save_model m path false fs = .ok fs1 ∧
      fs1.dirs = folderOf path i :: fs.dirs ∧
      save_model m path false fs1 = .ok fs1 := by
  refine ⟨writeFile (addDir fs (folderOf path i)) path (state_dict m),
    ?_, rfl, ?_⟩
  · unfold save_model
    rw [hr]
    simp [hfold]
  · unfold save_model
    rw [hr]
    have h1 : existsPath (writeFile (addDir fs (folderOf path i)) path
        (state_dict m)) (folderOf path i) = true := by
      simp [existsPath, writeFile, addDir]
    have h2 : existsPath (writeFile (addDir fs (folderOf path i)) path
        (state_dict m)) path = true :=
      existsPath_writeFile (addDir fs (folderOf path i)) path (state_dict m)
    simp [h1, h2]

/-- Witness for `save_mkdir_idempotent`: double save into an initially
empty filesystem. -/
theorem save_mkdir_idempotent_witness :
    ∃ fs1, save_model zeroModel "d\\m.pth" false fsEmpty = .ok fs1 ∧
      fs1.dirs = folderOf "d\\m.pth" 1 :: fsEmpty.dirs ∧
      save_model zeroModel "d\\m.pth" false fs1 = .ok fs1 :=
  save_mkdir_idempotent zeroModel "d\\m.pth" fsEmpty 1 rfl rfl

/-- A key whose lookup succeeds is among the association list's keys. -/
theorem lookup_some_mem {sd : StateDict} {k : String} {v : ParamVal}
    (h : sd.lookup k = some v) : k ∈ sd.map Prod.fst := by
  induction sd with
  | nil => simp [List.lookup] at h
  | cons a l ih =>
    obtain ⟨k', v'⟩ := a
    rw [List.lookup_cons] at h
    rcases hak : (k == k') with _ | _
    · rw [hak] at h
      exact List.mem_cons_of_mem _ (ih h)
    · exact List.mem_cons.mpr (Or.inl (eq_of_beq hak))

/-- A passed 4-d key check means the key is present. -/
theorem checkKey4_mem {sd : StateDict} {k : String} {a0 a1 a2 a3 : ℕ}
    (h : checkKey4 sd k a0 a1 a2 a3 = true) : k ∈ sd.map Prod.fst := by
  unfold checkKey4 at h
  split at h
  · next heq => exact lookup_some_mem heq
  · exact absurd h (by simp)

/-- A passed 2-d key check means the key is present. -/
theorem checkKey2_mem {sd : StateDict} {k : String} {a0 a1 : ℕ}
    (h : checkKey2 sd k a0 a1 = true) : k ∈ sd.map Prod.fst := by
  unfold checkKey2 at h
  split at h
  · next heq => exact lookup_some_mem heq
  · exact absurd h (by simp)

/-- A passed 1-d key check means the key is present. -/
theorem checkKey1_mem {sd : StateDict} {k : String} {a0 : ℕ}
    (h : checkKey1 sd k a0 = true) : k ∈ sd.map Prod.fst := by
  unfold checkKey1 at h
  split at h
  · next heq => exact lookup_some_mem heq
  · exact absurd h (by simp)

/-- A checkpoint passing validation has exactly the declared name set. -/
theorem checkSD_keys {sd : StateDict} (h : checkSD sd = true) :
    ∀ k : String, k ∈ sd.map Prod.fst ↔ k ∈ declaredKeys := by
  unfold checkSD at h
  simp only [Bool.and_eq_true] at h
  obtain ⟨⟨⟨⟨⟨⟨⟨⟨⟨⟨⟨⟨c1, c2⟩, c3⟩, c4⟩, c5⟩, c6⟩, c7⟩, c8⟩, c9⟩, c10⟩,
    c11⟩, c12⟩, call⟩ := h
  intro k
  constructor
  · intro hk
    obtain ⟨⟨k', v'⟩, hm, rfl⟩ := List.mem_map.mp hk
    have := List.all_eq_true.mp call _ hm
    simpa [List.contains, List.elem_iff] using this
  · intro hk
    simp only [declaredKeys, List.mem_cons, List.not_mem_nil, or_false] at hk
    rcases hk with rfl | rfl | rfl | rfl | rfl | rfl | rfl | rfl | rfl | rfl
      | rfl | rfl
    · exact checkKey4_mem c1
    · exact checkKey1_mem c2
    · exact checkKey4_mem c3
    · exact checkKey1_mem c4
    · exact checkKey4_mem c5
    · exact checkKey1_mem c6
    · exact checkKey2_mem c7
    · exact checkKey1_mem c8
    · exact checkKey2_mem c9
    · exact checkKey1_mem c10
    · exact checkKey2_mem c11
    · exact checkKey1_mem c12

/-- C6: loading a checkpoint whose parameter name set differs from the
declared parameter names of `RoCNN` fails with the parameter-mismatch error;
no model is returned to the caller. -/
theorem load_mismatch (init : RoCNN) (path answer : String) (fs : FS)
    (sd : StateDict)
    (hf : fs.files.lookup path = some sd)
    (hk : ¬ ∀ k : String, k ∈ sd.map Prod.fst ↔ k ∈ declaredKeys) :
    load_model init path answer fs = .error .parameterMismatch := by
  have hbad : checkSD sd = false := by
    rcases hcs : checkSD sd with _ | _
    · rfl
    · exact absurd (checkSD_keys hcs) hk
  have hex : existsPath fs path = true := by simp [existsPath, hf]
  unfold load_model
  rw [hex, hf]
  simp [load_state_dict, hbad]

/-- Witness for `load_mismatch`: a stored checkpoint whose only key is
`foo`. -/
theorem load_mismatch_witness :
    load_model zeroModel "d\\m.pth" "n" fsBad = .error .parameterMismatch :=
  load_mismatch zeroModel "d\\m.pth" "n" fsBad sdBad rfl
    (fun h => absurd ((h "cv1.0.weight").mpr (by decide)) (by decide))

end RoModel
